import Mathlib

/-!
Shallow embedding of `swift_undelete/middleware.py` (OpenStack Swift undelete
middleware) and proofs about its delete-interception, policy-resolution and
header-translation logic.

Strings coming from the WSGI layer are modelled as Lean `String`s; the Python
string primitives `str.startswith` and `str.lower` are embedded as list-of-
character operations so that every definition evaluates on concrete inputs.
External collaborators (the downstream WSGI app, the `requests` transport used
for the COPY and container PUT calls, and the account/container sysmeta
lookups) are modelled as oracles supplied to the middleware functions.
-/

namespace SwiftUndelete

/-- Embedding of Python `s.startswith(pre)`. -/
def startswith (s pre : String) : Bool := List.isPrefixOf pre.data s.data

/-- Embedding of Python `s.lower()`. -/
def str_lower (s : String) : String := String.mk (s.data.map Char.toLower)

/-- `swift.common.utils.TRUE_VALUES`: the truthy boolean literals. -/
def TRUE_VALUES : List String := ["true", "1", "yes", "on", "t", "y"]

/-- A Python value fed to `config_true_value`: either a string (metadata /
header / config-file value) or a bool (e.g. the `enable_by_default` field
passed as dict-get default in `is_enabled_for`). -/
inductive ConfigValue where
  | str : String → ConfigValue
  | bool : Bool → ConfigValue
deriving DecidableEq

/-- Embedding of `swift.common.utils.config_true_value`:
`value is True or (isinstance(value, str) and value.lower() in TRUE_VALUES)`. -/
def config_true_value : ConfigValue → Bool
  | ConfigValue.bool b => b
  | ConfigValue.str s => TRUE_VALUES.contains (str_lower s)

/-- `SYSMETA_UNDELETE_ENABLED = "undelete-enabled"` (middleware.py line 61). -/
def SYSMETA_UNDELETE_ENABLED : String := "undelete-enabled"

/-- `SYSMETA_ACCOUNT = get_sys_meta_prefix('account') + SYSMETA_UNDELETE_ENABLED`. -/
def SYSMETA_ACCOUNT : String := "x-account-sysmeta-" ++ SYSMETA_UNDELETE_ENABLED

/-- `SYSMETA_CONTAINER = get_sys_meta_prefix('container') + SYSMETA_UNDELETE_ENABLED`. -/
def SYSMETA_CONTAINER : String := "x-container-sysmeta-" ++ SYSMETA_UNDELETE_ENABLED

/-- The client-visible control header `'x-' + SYSMETA_UNDELETE_ENABLED`. -/
def X_UNDELETE_ENABLED : String := "x-" ++ SYSMETA_UNDELETE_ENABLED

/-- `friendly_error` (middleware.py lines 76-77). -/
def friendly_error (orig_error : String) : String :=
  "Error copying object to trash:\n" ++ orig_error

/-- `swift.common.http.is_success`: `200 <= status <= 299`. -/
def is_success (status : Nat) : Bool := decide (200 ≤ status) && decide (status ≤ 299)

/-- A header (or metadata) bag: key to optional value, mirroring dict lookup. -/
abbrev HeaderBag := String → Option String

/-- Functional update of a header bag, mirroring `headers[k] = v`. -/
def setHeader (h : HeaderBag) (k v : String) : HeaderBag :=
  fun k2 => if k2 == k then some v else h k2

/-- A response of the `requests` library, as consumed by `__call__`:
`status_code`, `headers`, `content`. -/
structure RequestsResponse where
  status_code : Nat
  headers : HeaderBag
  content : String

/-- A `swob` response as produced by the middleware or the downstream app. -/
structure SwobResponse where
  status : Nat
  headers : HeaderBag
  body : String

/-- The parts of the WSGI environment the middleware reads: the
`reseller_request` flag and the account/container sysmeta bags that
`get_account_info` / `get_container_info` would return for this request. -/
structure Env where
  reseller_request : Bool
  sysmeta_c : HeaderBag
  sysmeta_a : HeaderBag

/-- Result of `req.split_path(2, 4, rest_with_last=True)`: a ValueError
(`/info` or similar), or account / container / object paths. -/
inductive SwiftPath where
  | invalid : SwiftPath
  | account : String → SwiftPath
  | container : String → String → SwiftPath
  | object : String → String → String → SwiftPath

/-- The in-flight request: environment, method, client headers, parsed path. -/
structure Request where
  env : Env
  method : String
  headers : HeaderBag
  path : SwiftPath

/-- Configuration of `UndeleteMiddleware.__init__`. -/
structure UndeleteMiddleware where
  trash_prefix : String
  trash_lifetime : Nat
  block_trash_deletes : Bool
  enable_by_default : Bool

/-- `is_superuser` (middleware.py lines 256-260): `bool(env.get('reseller_request'))`. -/
def is_superuser (env : Env) : Bool := env.reseller_request

/-- `is_trash` (middleware.py lines 250-254): `con.startswith(self.trash_prefix)`. -/
def UndeleteMiddleware.is_trash (m : UndeleteMiddleware) (con : String) : Bool :=
  startswith con m.trash_prefix

/-- `is_enabled_for` (middleware.py lines 262-275): container sysmeta value,
else `sysmeta_a.get(key, self.enable_by_default)`, then `config_true_value`. -/
def UndeleteMiddleware.is_enabled_for (m : UndeleteMiddleware) (env : Env) : Bool :=
  let enabled : ConfigValue :=
    match env.sysmeta_c SYSMETA_UNDELETE_ENABLED with
    | some v => ConfigValue.str v
    | none =>
      match env.sysmeta_a SYSMETA_UNDELETE_ENABLED with
      | some v => ConfigValue.str v
      | none => ConfigValue.bool m.enable_by_default
  config_true_value enabled

/-- `should_save_copy` (middleware.py lines 277-283):
`not self.is_trash(con) and self.is_enabled_for(env)`. -/
def UndeleteMiddleware.should_save_copy (m : UndeleteMiddleware) (env : Env)
    (con obj : String) : Bool :=
  !(m.is_trash con) && m.is_enabled_for env

/-- The translation loop body of `translate_sysmeta_and_complete` run by a
superuser (middleware.py lines 217-227): for each `(client_header,
sysmeta_header)` entry, absent client header leaves headers untouched; a
truthy value writes `'True'`; the case-insensitive literal `'default'`
writes the empty string; anything else writes `'False'`. -/
def apply_sysmeta_translation (hs : HeaderBag)
    (mapping : List (String × String)) : HeaderBag :=
  mapping.foldl (fun acc p =>
    match acc p.1 with
    | none => acc
    | some val =>
      if config_true_value (ConfigValue.str val) then setHeader acc p.2 "True"
      else if str_lower val == "default" then setHeader acc p.2 ""
      else setHeader acc p.2 "False") hs

/-- The response loop of `translate_sysmeta_and_complete` (middleware.py lines
229-231): copy each sysmeta header present in the response back onto the
corresponding client-visible header. -/
def reflect_sysmeta (rh : HeaderBag) (mapping : List (String × String)) : HeaderBag :=
  mapping.foldl (fun acc p =>
    match acc p.2 with
    | none => acc
    | some v => setHeader acc p.1 v) rh

/-- `translate_sysmeta_and_complete` (middleware.py lines 208-232). The
downstream pipeline `req.get_response(self.app)` is the oracle `app`. -/
def translate_sysmeta_and_complete (m : UndeleteMiddleware) (req : Request)
    (mapping : List (String × String)) (app : Request → SwobResponse) : SwobResponse :=
  let req2 :=
    if is_superuser req.env then
      { req with headers := apply_sysmeta_translation req.headers mapping }
    else req
  let resp := app req2
  { resp with headers := reflect_sysmeta resp.headers mapping }

/-- Transport oracle for the external `requests` calls: `copy_results dest obj
n` is the response of the `n`-th COPY to container `dest`, object `obj`
(`CopyContext.copy`); `create_results c v` is the response of a container PUT
of `c` with optional `X-Versions-Location` `v` (`ContainerContext.create`).
`requests.request` returns these responses without raising on HTTP error
statuses. -/
structure Backend where
  copy_results : String → String → Nat → RequestsResponse
  create_results : String → Option String → RequestsResponse

/-- `swob.HTTPMethodNotAllowed(...)` built at middleware.py lines 182-185. -/
def trash_block_response : SwobResponse :=
  { status := 405,
    headers := fun k => if k == "Content-Type" then some "text/plain" else none,
    body := "Attempted to delete from a trash container, but block_trash_deletes is enabled\n" }

/-- `swob.HTTPForbidden(...)` built at middleware.py lines 187-190. -/
def trash_forbidden_response : SwobResponse :=
  { status := 403,
    headers := fun k => if k == "Content-Type" then some "text/plain" else none,
    body := "Attempted to delete from a trash container, but user is not a superuser\n" }

/-- The `swob.Response` built at middleware.py lines 202-205 from a failed
copy attempt: upstream status and headers, body wrapped by `friendly_error`. -/
def error_response (r : RequestsResponse) : SwobResponse :=
  { status := r.status_code, headers := r.headers, body := friendly_error r.content }

/-- Outcome of `__call__`: `app` is `return self.app` (the original request is
forwarded down the pipeline), `resp` is a response returned by the middleware. -/
inductive CallResult where
  | app : CallResult
  | resp : SwobResponse → CallResult

/-- Outcome of one `__call__`, together with how many external COPY requests
and container PUT requests the middleware issued while producing it. -/
structure CallTrace where
  result : CallResult
  copy_calls : Nat
  create_calls : Nat

/-- The copy destination `trash_container = self.trash_prefix + con`
(middleware.py line 194). -/
def trash_destination (m : UndeleteMiddleware) (con : String) : String :=
  m.trash_prefix ++ con

/-- The object-DELETE arm of `__call__` (middleware.py lines 181-206).
Mirrors the source's `if/elif` chain exactly: in the 404 branch the two
container PUT responses and the retried COPY response are computed and then
discarded, because control falls through to the final `return self.app`
without re-examining `response`. -/
def object_delete (m : UndeleteMiddleware) (req : Request) (acc con obj : String)
    (b : Backend) : CallTrace :=
  if m.is_trash con && m.block_trash_deletes then
    { result := CallResult.resp trash_block_response, copy_calls := 0, create_calls := 0 }
  else if m.is_trash con && !(is_superuser req.env) then
    { result := CallResult.resp trash_forbidden_response, copy_calls := 0, create_calls := 0 }
  else if !(m.should_save_copy req.env con obj) then
    { result := CallResult.app, copy_calls := 0, create_calls := 0 }
  else
    let trash_container := trash_destination m con
    let response := b.copy_results trash_container obj 0
    if response.status_code == 404 then
      -- create_trash_container (lines 238-248): versions companion first,
      -- then the trash container pointing at it; both responses ignored.
      let _versions_resp := b.create_results (trash_container ++ "-versions") none
      let _trash_resp :=
        b.create_results trash_container (some (trash_container ++ "-versions"))
      -- retried copy: its response is assigned but never checked.
      let _retried := b.copy_results trash_container obj 1
      { result := CallResult.app, copy_calls := 2, create_calls := 2 }
    else if !(is_success response.status_code) then
      { result := CallResult.resp (error_response response), copy_calls := 1, create_calls := 0 }
    else
      { result := CallResult.app, copy_calls := 1, create_calls := 0 }

/-- `UndeleteMiddleware.__call__` (middleware.py lines 156-206): path
classification, account/container sysmeta translation, object-DELETE
interception; everything else is forwarded untouched. -/
def undelete_call (m : UndeleteMiddleware) (req : Request)
    (app : Request → SwobResponse) (b : Backend) : CallTrace :=
  match req.path with
  | SwiftPath.invalid =>
    { result := CallResult.app, copy_calls := 0, create_calls := 0 }
  | SwiftPath.account _ =>
    { result := CallResult.resp (translate_sysmeta_and_complete m req
        [(X_UNDELETE_ENABLED, SYSMETA_ACCOUNT)] app),
      copy_calls := 0, create_calls := 0 }
  | SwiftPath.container _ _ =>
    { result := CallResult.resp (translate_sysmeta_and_complete m req
        [(X_UNDELETE_ENABLED, SYSMETA_CONTAINER)] app),
      copy_calls := 0, create_calls := 0 }
  | SwiftPath.object acc con obj =>
    if req.method != "DELETE" then
      { result := CallResult.app, copy_calls := 0, create_calls := 0 }
    else
      object_delete m req acc con obj b

/-- A downstream app that persists the sysmeta header `sh` (initial stored
value `stored`) and reflects the stored value back as a response header:
the behaviour `translate_sysmeta_and_complete` relies on in the backend. -/
def store_app (sh : String) (stored : Option String) : Request → SwobResponse :=
  fun req =>
    let new_stored :=
      match req.headers sh with
      | some v => some v
      | none => stored
    { status := 204,
      headers := fun k => if k == sh then new_stored else none,
      body := "" }

/-! Concrete fixtures used by witness theorems. -/

/-- The default configuration of `filter_factory` / `__init__`. -/
def mw_default : UndeleteMiddleware :=
  { trash_prefix := ".trash-", trash_lifetime := 86400 * 90,
    block_trash_deletes := false, enable_by_default := true }

/-- The default configuration with `block_trash_deletes` turned on. -/
def mw_blocking : UndeleteMiddleware := { mw_default with block_trash_deletes := true }

/-- An empty header/metadata bag. -/
def no_headers : HeaderBag := fun _ => none

/-- A request environment with no sysmeta and no reseller flag. -/
def env_plain : Env :=
  { reseller_request := false, sysmeta_c := no_headers, sysmeta_a := no_headers }

/-- A metadata bag holding a single key/value pair. -/
def single_meta (k v : String) : HeaderBag :=
  fun k2 => if k2 == k then some v else none

/-- A transport oracle answering every external request with one fixed response. -/
def const_backend (r : RequestsResponse) : Backend :=
  { copy_results := fun _ _ _ => r, create_results := fun _ _ => r }

/-- A `requests` response carrying only a status code. -/
def resp_of (s : Nat) : RequestsResponse :=
  { status_code := s, headers := no_headers, content := "" }

/-- A downstream app returning a fixed empty 204. -/
def app_204 : Request → SwobResponse :=
  fun _ => { status := 204, headers := no_headers, body := "" }

/-! Theorems for the claims. -/

/-- C4: if `block_trash_deletes` is true, an object DELETE on a container whose
name starts with the trash prefix is answered with the terminal 405
Method-Not-Allowed response for every caller — the hypotheses say nothing
about `reseller_request`, so privilege cannot bypass the block. -/
theorem blocked_trash_delete_is_405 (m : UndeleteMiddleware) (req : Request)
    (app : Request → SwobResponse) (b : Backend) (acc con obj : String)
    (hpath : req.path = SwiftPath.object acc con obj)
    (hmethod : req.method = "DELETE")
    (hblock : m.block_trash_deletes = true)
    (htrash : m.is_trash con = true) :
    (undelete_call m req app b).result = CallResult.resp trash_block_response ∧
    trash_block_response.status = 405 := by
  refine ⟨?_, rfl⟩
  simp [undelete_call, hpath, hmethod, object_delete, htrash, hblock]

/-- Witness for C4: a superuser deleting `.trash-photos/cat.jpg` under a
blocking configuration still gets the 405 response. -/
theorem blocked_trash_delete_is_405_witness :
    (undelete_call mw_blocking
      { env := { env_plain with reseller_request := true }, method := "DELETE",
        headers := no_headers, path := SwiftPath.object "AUTH_test" ".trash-photos" "cat.jpg" }
      app_204 (const_backend (resp_of 204))).result
        = CallResult.resp trash_block_response ∧
    trash_block_response.status = 405 :=
  blocked_trash_delete_is_405 mw_blocking _ app_204 (const_backend (resp_of 204))
    "AUTH_test" ".trash-photos" "cat.jpg" rfl rfl rfl (by decide)

/-- C5: if `block_trash_deletes` is false and the caller is not a superuser
(no `reseller_request` marker), an object DELETE on a trash-prefixed
container is answered with the terminal 403 Forbidden response. -/
theorem nonadmin_trash_delete_is_403 (m : UndeleteMiddleware) (req : Request)
    (app : Request → SwobResponse) (b : Backend) (acc con obj : String)
    (hpath : req.path = SwiftPath.object acc con obj)
    (hmethod : req.method = "DELETE")
    (hblock : m.block_trash_deletes = false)
    (hsup : is_superuser req.env = false)
    (htrash : m.is_trash con = true) :
    (undelete_call m req app b).result = CallResult.resp trash_forbidden_response ∧
    trash_forbidden_response.status = 403 := by
  refine ⟨?_, rfl⟩
  simp [undelete_call, hpath, hmethod, object_delete, htrash, hblock, hsup]

/-- Witness for C5: a plain caller deleting `.trash-photos/cat.jpg` with
blocking off gets the 403 response. -/
theorem nonadmin_trash_delete_is_403_witness :
    (undelete_call mw_default
      { env := env_plain, method := "DELETE", headers := no_headers,
        path := SwiftPath.object "AUTH_test" ".trash-photos" "cat.jpg" }
      app_204 (const_backend (resp_of 204))).result
        = CallResult.resp trash_forbidden_response ∧
    trash_forbidden_response.status = 403 :=
  nonadmin_trash_delete_is_403 mw_default _ app_204 (const_backend (resp_of 204))
    "AUTH_test" ".trash-photos" "cat.jpg" rfl rfl rfl rfl (by decide)

/-- C6: `should_save_copy` is false for every trash-prefixed container,
whatever the account/container metadata says (the environment is universally
quantified): trash containers are never themselves protected. -/
theorem trash_container_never_saved (m : UndeleteMiddleware) (env : Env)
    (con obj : String) (htrash : m.is_trash con = true) :
    m.should_save_copy env con obj = false := by
  simp [UndeleteMiddleware.should_save_copy, htrash]

/-- Witness for C6: even with both container and account metadata explicitly
enabling undelete, `should_save_copy` is false on `.trash-x`. -/
theorem trash_container_never_saved_witness :
    UndeleteMiddleware.should_save_copy mw_default
      { reseller_request := false,
        sysmeta_c := single_meta SYSMETA_UNDELETE_ENABLED "true",
        sysmeta_a := single_meta SYSMETA_UNDELETE_ENABLED "true" }
      ".trash-x" "o" = false :=
  trash_container_never_saved mw_default _ ".trash-x" "o" (by decide)

/-- C7: for non-trash containers the saved-copy decision is exactly the
resolved policy, and the policy is resolved by: container sysmeta value if
present, else account sysmeta value if present, else the configured
`enable_by_default`; in each case the result is `config_true_value` of that
value (truthy-literal parsing). -/
theorem policy_resolution (m : UndeleteMiddleware) (env : Env) :
    (∀ con obj, m.is_trash con = false →
      m.should_save_copy env con obj = m.is_enabled_for env) ∧
    (∀ v, env.sysmeta_c SYSMETA_UNDELETE_ENABLED = some v →
      m.is_enabled_for env = config_true_value (ConfigValue.str v)) ∧
    (∀ v, env.sysmeta_c SYSMETA_UNDELETE_ENABLED = none →
      env.sysmeta_a SYSMETA_UNDELETE_ENABLED = some v →
      m.is_enabled_for env = config_true_value (ConfigValue.str v)) ∧
    (env.sysmeta_c SYSMETA_UNDELETE_ENABLED = none →
      env.sysmeta_a SYSMETA_UNDELETE_ENABLED = none →
      m.is_enabled_for env = config_true_value (ConfigValue.bool m.enable_by_default)) := by
  refine ⟨?_, ?_, ?_, ?_⟩ <;> intros <;>
    simp [UndeleteMiddleware.should_save_copy, UndeleteMiddleware.is_enabled_for, *]

/-- Witness for C7: with container metadata `"yes"` the resolved policy is
`config_true_value "yes"` (i.e. enabled). -/
theorem policy_resolution_witness :
    UndeleteMiddleware.is_enabled_for mw_default
      { reseller_request := false,
        sysmeta_c := single_meta SYSMETA_UNDELETE_ENABLED "yes",
        sysmeta_a := no_headers }
      = config_true_value (ConfigValue.str "yes") :=
  (policy_resolution mw_default _).2.1 "yes" (by decide)

/-- C10: whenever the container sysmeta carries the undelete-enabled key —
with any value, the empty string included — the resolution is
`config_true_value` of that value alone: the account bag and the configured
default are never consulted (the result is invariant under changing both),
and an empty-string container value resolves to disabled. -/
theorem container_value_preempts (m : UndeleteMiddleware) (env : Env) (v : String)
    (hc : env.sysmeta_c SYSMETA_UNDELETE_ENABLED = some v) :
    m.is_enabled_for env = config_true_value (ConfigValue.str v) ∧
    (∀ (d : Bool) (a : HeaderBag),
      UndeleteMiddleware.is_enabled_for { m with enable_by_default := d }
        { env with sysmeta_a := a } = config_true_value (ConfigValue.str v)) ∧
    (v = "" → m.is_enabled_for env = false) := by
  refine ⟨?_, ?_, ?_⟩
  · simp [UndeleteMiddleware.is_enabled_for, hc]
  · intro d a
    simp [UndeleteMiddleware.is_enabled_for, hc]
  · intro hv
    subst hv
    simp [UndeleteMiddleware.is_enabled_for, hc]
    decide

/-- Witness for C10: container value `""` with account metadata `"true"` and
`enable_by_default = true` still resolves to disabled. -/
theorem container_value_preempts_witness :
    UndeleteMiddleware.is_enabled_for mw_default
      { reseller_request := false,
        sysmeta_c := single_meta SYSMETA_UNDELETE_ENABLED "",
        sysmeta_a := fun _ => some "true" } = false :=
  (container_value_preempts mw_default _ "" (by decide)).2.2 rfl

/-- C3: when the copy protocol is entered (`should_save_copy` true) and the
first copy attempt returns a non-404 failure status, the original delete is
never forwarded: the middleware returns a terminal response carrying the
upstream status code and headers, with a body that is `friendly_error` of the
upstream body, i.e. it begins with "Error copying object to trash:". -/
theorem first_copy_error_is_terminal (m : UndeleteMiddleware) (req : Request)
    (app : Request → SwobResponse) (b : Backend) (acc con obj : String)
    (hpath : req.path = SwiftPath.object acc con obj)
    (hmethod : req.method = "DELETE")
    (hsave : m.should_save_copy req.env con obj = true)
    (hnot404 : (b.copy_results (trash_destination m con) obj 0).status_code ≠ 404)
    (hfail : is_success (b.copy_results (trash_destination m con) obj 0).status_code = false) :
    (undelete_call m req app b).result
      = CallResult.resp (error_response (b.copy_results (trash_destination m con) obj 0)) ∧
    (undelete_call m req app b).result ≠ CallResult.app ∧
    (error_response (b.copy_results (trash_destination m con) obj 0)).status
      = (b.copy_results (trash_destination m con) obj 0).status_code ∧
    (error_response (b.copy_results (trash_destination m con) obj 0)).headers
      = (b.copy_results (trash_destination m con) obj 0).headers ∧
    (error_response (b.copy_results (trash_destination m con) obj 0)).body.data
      = "Error copying object to trash:".data
        ++ ("\n".data ++ (b.copy_results (trash_destination m con) obj 0).content.data) := by
  have hs := hsave
  rw [UndeleteMiddleware.should_save_copy, Bool.and_eq_true, Bool.not_eq_true'] at hs
  obtain ⟨htrash, _⟩ := hs
  have h404 : ((b.copy_results (trash_destination m con) obj 0).status_code == 404) = false :=
    beq_eq_false_iff_ne.mpr hnot404
  refine ⟨?_, ?_, rfl, rfl, ?_⟩
  · simp [undelete_call, hpath, hmethod, object_delete, htrash, hsave, h404, hfail]
  · simp [undelete_call, hpath, hmethod, object_delete, htrash, hsave, h404, hfail]
  · have hsplit : ("Error copying object to trash:\n").data
        = ("Error copying object to trash:").data ++ ("\n").data := by decide
    simp [error_response, friendly_error, String.data_append, hsplit, List.append_assoc]

/-- Witness for C3: a 507 on the first copy attempt yields the terminal 507
response with the friendly-error body. -/
theorem first_copy_error_is_terminal_witness :
    (undelete_call mw_default
      { env := env_plain, method := "DELETE", headers := no_headers,
        path := SwiftPath.object "AUTH_test" "photos" "cat.jpg" }
      app_204 (const_backend { status_code := 507, headers := no_headers,
                               content := "Insufficient Storage" })).result
      = CallResult.resp (error_response { status_code := 507, headers := no_headers,
                                          content := "Insufficient Storage" }) :=
  (first_copy_error_is_terminal mw_default _ app_204
    (const_backend { status_code := 507, headers := no_headers,
                     content := "Insufficient Storage" })
    "AUTH_test" "photos" "cat.jpg" rfl rfl (by decide) (by decide) (by decide)).1

/-- C1 divergence: a transport oracle on which every copy attempt returns 404.
The first attempt's 404 triggers provisioning and the retry, whose second 404
should be terminal per the spec. -/
def backend_double_404 : Backend :=
  { copy_results := fun _ _ _ => resp_of 404, create_results := fun _ _ => resp_of 201 }

/-- C1: evaluation of `__call__` at the failing input: the first copy attempt
returns 404, the trash container is provisioned, the retried copy attempt
returns 404 again — and the middleware nevertheless returns `self.app`,
forwarding the original delete with no safety copy and surfacing no error.
The source's `if/elif` chain never re-examines the reassigned `response`
before the final `return self.app`, so the retried attempt's failure is
silently ignored, contradicting the claim (and the spec's terminal-error
requirement). -/
theorem retried_copy_failure_still_forwards :
    (undelete_call mw_default
      { env := env_plain, method := "DELETE", headers := no_headers,
        path := SwiftPath.object "AUTH_test" "photos" "cat.jpg" }
      app_204 backend_double_404).result = CallResult.app ∧
    (undelete_call mw_default
      { env := env_plain, method := "DELETE", headers := no_headers,
        path := SwiftPath.object "AUTH_test" "photos" "cat.jpg" }
      app_204 backend_double_404).copy_calls = 2 ∧
    (undelete_call mw_default
      { env := env_plain, method := "DELETE", headers := no_headers,
        path := SwiftPath.object "AUTH_test" "photos" "cat.jpg" }
      app_204 backend_double_404).create_calls = 2 :=
  ⟨rfl, rfl, rfl⟩

/-- C2: evaluation of `__call__` with the first copy returning 404 and the
retried copy succeeding, universally over the provisioning oracle: whatever
statuses the two container PUTs return (500, 503, ...), the outcome is the
same plain forward of the delete — `ContainerContext.create` returns the raw
`requests` response and `create_trash_container` discards both responses, so
no provisioning failure is ever surfaced, contradicting the claim (and the
docstrings that promise `HTTPException` on failure). -/
theorem provisioning_outcome_ignored :
    ∀ (cr : String → Option String → RequestsResponse),
      (undelete_call mw_default
        { env := env_plain, method := "DELETE", headers := no_headers,
          path := SwiftPath.object "AUTH_test" "photos" "cat.jpg" }
        app_204
        { copy_results := fun _ _ n => if n == 0 then resp_of 404 else resp_of 201,
          create_results := cr }).result = CallResult.app ∧
      (undelete_call mw_default
        { env := env_plain, method := "DELETE", headers := no_headers,
          path := SwiftPath.object "AUTH_test" "photos" "cat.jpg" }
        app_204
        { copy_results := fun _ _ n => if n == 0 then resp_of 404 else resp_of 201,
          create_results := cr }).create_calls = 2 :=
  fun _ => ⟨rfl, rfl⟩

/-- C8: administrator header translation and its round-trip. For a superuser:
a truthy control-header value writes `"True"` into the sysmeta header of the
forwarded request, the case-insensitive literal `"default"` writes the empty
string, and any other present value writes `"False"`; setting `"default"` and
reading the header back through a sysmeta-persisting backend returns the
empty string; and account- and container-level requests perform no copy and
no container-creation calls. -/
theorem admin_translation_and_roundtrip (m : UndeleteMiddleware) :
    (∀ (hs : HeaderBag) (ch sh v : String), hs ch = some v →
      config_true_value (ConfigValue.str v) = true →
      apply_sysmeta_translation hs [(ch, sh)] sh = some "True") ∧
    (∀ (hs : HeaderBag) (ch sh v : String), hs ch = some v →
      str_lower v = "default" →
      apply_sysmeta_translation hs [(ch, sh)] sh = some "") ∧
    (∀ (hs : HeaderBag) (ch sh v : String), hs ch = some v →
      config_true_value (ConfigValue.str v) = false → str_lower v ≠ "default" →
      apply_sysmeta_translation hs [(ch, sh)] sh = some "False") ∧
    (∀ (req : Request) (ch sh v : String) (st : Option String),
      is_superuser req.env = true → req.headers ch = some v →
      str_lower v = "default" →
      (translate_sysmeta_and_complete m req [(ch, sh)] (store_app sh st)).headers ch
        = some "") ∧
    (∀ (req : Request) (app : Request → SwobResponse) (b : Backend) (acc : String),
      req.path = SwiftPath.account acc →
      (undelete_call m req app b).copy_calls = 0 ∧
      (undelete_call m req app b).create_calls = 0) ∧
    (∀ (req : Request) (app : Request → SwobResponse) (b : Backend) (acc con : String),
      req.path = SwiftPath.container acc con →
      (undelete_call m req app b).copy_calls = 0 ∧
      (undelete_call m req app b).create_calls = 0) := by
  have hdefault_not_true : ∀ v : String, str_lower v = "default" →
      config_true_value (ConfigValue.str v) = false := by
    intro v hv
    rw [config_true_value, hv]
    decide
  refine ⟨?_, ?_, ?_, ?_, ?_, ?_⟩
  · intro hs ch sh v h htrue
    simp [apply_sysmeta_translation, h, htrue, setHeader]
  · intro hs ch sh v h hlow
    simp [apply_sysmeta_translation, h, hdefault_not_true v hlow, hlow, setHeader]
  · intro hs ch sh v h hfalse hne
    simp [apply_sysmeta_translation, h, hfalse, hne, setHeader]
  · intro req ch sh v st hsup h hlow
    simp [translate_sysmeta_and_complete, hsup, apply_sysmeta_translation, h,
      hdefault_not_true v hlow, hlow, store_app, reflect_sysmeta, setHeader]
  · intro req app b acc hpath
    simp [undelete_call, hpath]
  · intro req app b acc con hpath
    simp [undelete_call, hpath]

/-- Witness for C8: an administrator sending `X-Undelete-Enabled: DeFault` on
an account request through a sysmeta-persisting backend reads back the empty
string. -/
theorem admin_translation_and_roundtrip_witness :
    (translate_sysmeta_and_complete mw_default
      { env := { env_plain with reseller_request := true }, method := "POST",
        headers := single_meta X_UNDELETE_ENABLED "DeFault",
        path := SwiftPath.account "AUTH_test" }
      [(X_UNDELETE_ENABLED, SYSMETA_ACCOUNT)]
      (store_app SYSMETA_ACCOUNT (some "True"))).headers X_UNDELETE_ENABLED
      = some "" :=
  (admin_translation_and_roundtrip mw_default).2.2.2.1 _
    X_UNDELETE_ENABLED SYSMETA_ACCOUNT "DeFault" (some "True")
    rfl (by decide) (by decide)

/-- C9: a non-superuser request is forwarded with its headers untouched — the
middleware writes no sysmeta header, so stored metadata is unchanged — and
the response translation still copies the sysmeta value in the response back
onto the client-visible header whenever the sysmeta key is present. -/
theorem nonadmin_translation_readonly (m : UndeleteMiddleware) (req : Request)
    (mapping : List (String × String)) (app : Request → SwobResponse)
    (hsup : is_superuser req.env = false) :
    translate_sysmeta_and_complete m req mapping app
      = { app req with headers := reflect_sysmeta (app req).headers mapping } ∧
    (∀ ch sh v, mapping = [(ch, sh)] → (app req).headers sh = some v →
      (translate_sysmeta_and_complete m req mapping app).headers ch = some v) := by
  constructor
  · simp [translate_sysmeta_and_complete, hsup]
  · rintro ch sh v rfl hv
    simp [translate_sysmeta_and_complete, hsup, reflect_sysmeta, setHeader, hv]

/-- Witness for C9: a non-superuser sends `X-Undelete-Enabled: no`; the
backend reports sysmeta `"True"`, and the client header on the response
reads `"True"` while the forwarded request was left untouched. -/
theorem nonadmin_translation_readonly_witness :
    (translate_sysmeta_and_complete mw_default
      { env := env_plain, method := "POST",
        headers := single_meta X_UNDELETE_ENABLED "no",
        path := SwiftPath.account "AUTH_test" }
      [(X_UNDELETE_ENABLED, SYSMETA_ACCOUNT)]
      (fun _ => { status := 204, headers := single_meta SYSMETA_ACCOUNT "True",
                  body := "" })).headers X_UNDELETE_ENABLED = some "True" :=
  (nonadmin_translation_readonly mw_default
    { env := env_plain, method := "POST",
      headers := single_meta X_UNDELETE_ENABLED "no",
      path := SwiftPath.account "AUTH_test" }
    [(X_UNDELETE_ENABLED, SYSMETA_ACCOUNT)]
    (fun _ => { status := 204, headers := single_meta SYSMETA_ACCOUNT "True",
                body := "" }) rfl).2
    X_UNDELETE_ENABLED SYSMETA_ACCOUNT "True" rfl (by decide)

end SwiftUndelete
